import Mathlib

/-!
Verification of the JUNO support-automation core (ticket lifecycle, slot
filling, mood classification fallback chain, config-driven dispatch) against
its natural-language specification.  Python modules are shallowly embedded:
dictionaries become association lists, nondeterministic externals (uuid,
clock, ML model outputs, FAQ matcher, template renderer) become explicit
parameters, and fallible calls return `Except`.
-/

/-! ## Association-list dictionaries (Python `dict`, insertion ordered) -/

/-- First-match lookup in an association list (Python `d.get(k)`). -/
def dictGet {α : Type} (d : List (String × α)) (k : String) : Option α :=
  match d with
  | [] => none
  | (k', v) :: t => if k' = k then some v else dictGet t k

/-- Key membership (Python `k in d`). -/
def dictHasKey {α : Type} (d : List (String × α)) (k : String) : Bool :=
  match d with
  | [] => false
  | (k', _) :: t => k' = k || dictHasKey t k

/-- Set one key (Python `d[k] = v`): existing key updated in place, new key
appended, matching CPython insertion-order semantics. -/
def dictSet {α : Type} (d : List (String × α)) (k : String) (v : α) :
    List (String × α) :=
  match d with
  | [] => [(k, v)]
  | (k', v') :: t => if k' = k then (k, v) :: t else (k', v') :: dictSet t k v

/-- Merge (Python `d.update(u)`). -/
def dictUpdate {α : Type} (d u : List (String × α)) : List (String × α) :=
  u.foldl (fun acc p => dictSet acc p.1 p.2) d

/-- Delete a key (Python `del d[k]`, total: absent key is a no-op here). -/
def dictRemove {α : Type} (d : List (String × α)) (k : String) :
    List (String × α) :=
  match d with
  | [] => []
  | (k', v) :: t => if k' = k then dictRemove t k else (k', v) :: dictRemove t k

/-! ## String helpers mirroring the Python primitives used by the source -/

/-- Python `\s` (ASCII range): space, tab, newline, carriage return,
vertical tab, form feed. -/
def pyIsSpace (c : Char) : Bool :=
  c = ' ' || c = '\t' || c = '\n' || c = '\r' || c = '\x0b' || c = '\x0c'

/-- Character class `[A-Za-z0-9-]` of the order-id patterns. -/
def isIdChar (c : Char) : Bool :=
  c.isAlpha || c.isDigit || c = '-'

/-- Python `\w` (ASCII): letters, digits, underscore. -/
def isWordChar (c : Char) : Bool :=
  c.isAlpha || c.isDigit || c = '_'

/-- Character class `[\w.-]` of the email pattern. -/
def isLocalChar (c : Char) : Bool :=
  isWordChar c || c = '.' || c = '-'

/-- Does `needle` occur as a prefix of `hay` (character lists)? -/
def listIsPrefixOf : List Char → List Char → Bool
  | [], _ => true
  | _ :: _, [] => false
  | a :: as, b :: bs => a = b && listIsPrefixOf as bs

/-- Substring occurrence on character lists (Python `needle in hay`). -/
def listContains (needle : List Char) : List Char → Bool
  | [] => listIsPrefixOf needle []
  | h :: t => listIsPrefixOf needle (h :: t) || listContains needle t

/-- Python `needle in hay` for strings. -/
def strContains (hay needle : String) : Bool :=
  listContains needle.data hay.data

/-- Python `any(w in hay for w in ws)`. -/
def containsAny (hay : String) (ws : List String) : Bool :=
  ws.any (fun w => strContains hay w)

/-- Python `s.strip(chars)` on a character list: drop the given characters
from both ends. -/
def listStrip (cs : List Char) (l : List Char) : List Char :=
  ((l.dropWhile (fun c => cs.contains c)).reverse.dropWhile
    (fun c => cs.contains c)).reverse

/-- Python `str.split()`: split on whitespace, discarding empty tokens. -/
def splitWs (l : List Char) : List (List Char) :=
  (l.splitOnP pyIsSpace).filter (fun t => t ≠ [])

/-- Python `s.isdigit()` for ASCII text: nonempty and all digits. -/
def pyIsDigitStr (s : String) : Bool :=
  s.length > 0 && s.data.all Char.isDigit

/-- Python `s.lower()` for ASCII text. -/
def pyLower (s : String) : String :=
  String.mk (s.data.map Char.toLower)

/-- Python `s.upper()` for ASCII text. -/
def pyUpper (s : String) : String :=
  String.mk (s.data.map Char.toUpper)

/-- Python `s.startswith(pre)`. -/
def pyStartsWith (s pre : String) : Bool :=
  listIsPrefixOf pre.data s.data

/-! ## Ticket data model (`m04_ticket_manager.py`) -/

/-- One history entry: `{timestamp, sender, text}`. -/
structure Msg where
  timestamp : String
  sender : String
  text : String
deriving DecidableEq, Repr

/-- `Ticket` — one conversation's working state.  Entity values are the
strings the extractor produces. -/
structure Ticket where
  ticket_id : String
  user_id : String
  intent : String
  mood : String
  severity : String
  extracted_entities : List (String × String)
  missing_fields : List String
  status : String
  created_at : String
  updated_at : String
  history : List Msg
deriving DecidableEq, Repr

/-- `Ticket.__init__`.  The fresh uuid and the current time are passed
explicitly.  `entities or {}` / `missing_fields or []` follow Python
truthiness: a falsy (empty or absent) argument becomes the empty dict/list,
which for lists is exactly `Option.getD []`. -/
def Ticket.init (freshId userId intent mood : String)
    (entities : Option (List (String × String)))
    (missing : Option (List String)) (severity now : String) : Ticket :=
  { ticket_id := freshId
    user_id := userId
    intent := intent
    mood := mood
    severity := severity
    extracted_entities := entities.getD []
    missing_fields := missing.getD []
    status := "OPEN"
    created_at := now
    updated_at := now
    history := [] }

/-- `Ticket.update_entities`: merge non-`None` values, drop newly covered
slots from `missing_fields`, stamp `updated_at`; early return on a falsy or
all-`None` argument. -/
def Ticket.update_entities (t : Ticket)
    (new_entities : Option (List (String × Option String))) (now : String) :
    Ticket :=
  match new_entities with
  | none => t
  | some ne =>
    if ne = [] then t
    else
      let valid := ne.filterMap (fun p => p.2.map (fun v => (p.1, v)))
      if valid = [] then t
      else
        let entities := dictUpdate t.extracted_entities valid
        let missing :=
          if t.missing_fields = [] then t.missing_fields
          else t.missing_fields.filter (fun f => !dictHasKey entities f)
        { t with
            extracted_entities := entities
            missing_fields := missing
            updated_at := now }

/-- `Ticket.add_message`: append a history entry. -/
def Ticket.add_message (t : Ticket) (now sender text : String) : Ticket :=
  { t with history := t.history ++ [⟨now, sender, text⟩] }

/-- `Ticket.is_complete`. -/
def Ticket.is_complete (t : Ticket) : Bool :=
  t.missing_fields.length = 0

/-- The serialized form produced by `Ticket.to_dict`.  Keys read through
`data.get(...)` in `from_dict` are optional; keys read by direct indexing
are required. -/
structure TicketDict where
  ticket_id : String
  user_id : String
  intent : String
  mood : Option String
  severity : Option String
  extracted_entities : Option (List (String × String))
  missing_fields : Option (List String)
  status : String
  created_at : String
  updated_at : String
  history : Option (List Msg)
deriving DecidableEq, Repr

/-- `Ticket.to_dict`. -/
def Ticket.to_dict (t : Ticket) : TicketDict :=
  { ticket_id := t.ticket_id
    user_id := t.user_id
    intent := t.intent
    mood := some t.mood
    severity := some t.severity
    extracted_entities := some t.extracted_entities
    missing_fields := some t.missing_fields
    status := t.status
    created_at := t.created_at
    updated_at := t.updated_at
    history := some t.history }

/-- `Ticket.from_dict`: rebuild via `__init__` (whose generated uuid and
timestamps are discarded) and then overwrite the identity fields. -/
def Ticket.from_dict (d : TicketDict) : Ticket :=
  let t := Ticket.init "" d.user_id d.intent (d.mood.getD "Neutral")
    d.extracted_entities d.missing_fields (d.severity.getD "Low") ""
  { t with
      ticket_id := d.ticket_id
      status := d.status
      created_at := d.created_at
      updated_at := d.updated_at
      history := d.history.getD [] }

/-- `TicketManager.calculate_severity`. -/
def calculate_severity (mood : String) : String :=
  if mood = "Angry" ∨ mood = "Urgent" then "High"
  else if mood = "Confused" then "Medium"
  else "Low"

/-- The invariant of spec section 3: no missing field is a key of the
extracted entities. -/
def ticketInvariant (t : Ticket) : Prop :=
  ∀ f ∈ t.missing_fields, f ∉ t.extracted_entities.map Prod.fst

/-! ## Mood classification (`m02_intent_classifier.py`) -/

/-- The per-mood keyword lists of `_keyword_fallback`, in source order. -/
def moodKeywords : List (String × List String) :=
  [("Angry",
    ["angry", "upset", "frustrated", "annoyed", "furious", "mad",
     "disappointed", "worst", "terrible", "horrible", "awful", "garbage",
     "trash", "useless", "broken", "damaged", "defective", "scam", "fraud",
     "rip off", "refund", "money back", "chargeback", "cheated", "stupid",
     "idiot", "incompetent", "ridiculous", "pathetic", "damn", "hell",
     "sucks"]),
   ("Happy",
    ["thanks", "thank you", "thx", "appreciate", "grateful", "love",
     "great", "awesome", "amazing", "excellent", "perfect", "wonderful",
     "fantastic", "good job", "best", "satisfied", "happy", "fast shipping",
     "high quality"]),
   ("Urgent",
    ["asap", "urgent", "emergency", "immediately", "right now", "hurry",
     "rush", "deadline", "late", "overdue", "where is my",
     "haven't received", "waiting"]),
   ("Confused",
    ["confused", "don't understand", "didn't understand", "unsure",
     "not sure", "clarify", "explain", "weird", "strange", "odd",
     "doesn't make sense", "help me understand", "how do i",
     "what does this mean"])]

/-- `IntentClassifier._keyword_fallback`: negation special case, then the
first mood category (in fixed order) with any keyword hit, else Neutral. -/
def keyword_fallback (text : String) : String :=
  let tl := pyLower text
  if strContains tl "not happy" || strContains tl "unhappy" then "Angry"
  else
    match moodKeywords.find? (fun mw => containsAny tl mw.2) with
    | some mw => mw.1
    | none => "Neutral"

/-- Negation-of-happiness phrases of the layer-1 safety override. -/
def happyNegatives : List String :=
  ["not happy", "unhappy", "disappointed", "delay", "waiting", "where is",
   "late"]

/-- Calming phrases of the layer-1 safety override. -/
def calmWords : List String :=
  ["just checking", "curious", "wondering", "no rush", "take your time",
   "update?"]

/-- `IntentClassifier.predict_mood`.  The SetFit layer is a black box: its
outcome is the parameter `ml` — `none` when the model is missing or its
call raised, `some (label, prob)` for the argmax label and probability it
produced.  At or above the 0.50 threshold the label is accepted subject to
the safety overrides; below it, and in the `none` case, the keyword layer
decides. -/
def predict_mood (ml : Option (String × ℚ)) (text : String) : String :=
  match ml with
  | some (mood, confidence) =>
    if confidence ≥ 1/2 then
      let tl := pyLower text
      if mood = "Happy" ∧ containsAny tl happyNegatives then "Angry"
      else if mood = "Urgent" ∧ containsAny tl calmWords then "Neutral"
      else mood
    else keyword_fallback text
  | none => keyword_fallback text

/-- Modelled from the spec: the third mood layer of section 4.2 — nearest
anchor cosine similarity with a 0.35 floor — which is absent from the
source (`mood_anchors` are computed in `IntentClassifier.__init__` but no
code reads them; `_keyword_fallback` returns Neutral directly).  Given the
winning anchor mood and its score, the spec's layer returns Neutral when a
non-Neutral winner scores below 0.35 and the winner otherwise. -/
def specAnchorLayer (winner : String) (score : ℚ) : String :=
  if winner ≠ "Neutral" ∧ score < 7/20 then "Neutral" else winner

/-! ## Entity extraction (`m05_entity_extractor.py`) -/

/-- Case-insensitive literal prefix match; returns the remainder after the
pattern (`pat` is given lowercase). -/
def ciPrefix (pat : String) (l : List Char) : Option (List Char) :=
  go pat.data l
where
  go : List Char → List Char → Option (List Char)
    | [], rest => some rest
    | _ :: _, [] => none
    | p :: ps, c :: cs => if c.toLower = p then go ps cs else none

/-- `\s*:?\s*` after the `order`/`id`/`ref` labels. -/
def dropLabelSpacing (l : List Char) : List Char :=
  let l1 := l.dropWhile pyIsSpace
  let l2 := match l1 with
    | ':' :: rest => rest
    | _ => l1
  l2.dropWhile pyIsSpace

/-- One attempt of the labeled pattern
`(?:#|Order\s*:?\s*|id\s*:?\s*|ref\s*:?\s*)` at the current position
(alternatives are distinguished by their first character, so source order
does not matter here); returns the characters where the capture group would
start. -/
def matchLabelAt (l : List Char) : Option (List Char) :=
  match l with
  | '#' :: rest => some rest
  | _ =>
    match ciPrefix "order" l with
    | some rest => some (dropLabelSpacing rest)
    | none =>
      match ciPrefix "id" l with
      | some rest => some (dropLabelSpacing rest)
      | none =>
        match ciPrefix "ref" l with
        | some rest => some (dropLabelSpacing rest)
        | none => none

/-- `re.search` of the labeled order-id pattern: leftmost position where a
label is followed by a `[A-Za-z0-9-]{4,}` run; the greedy maximal run is
the captured id. -/
def orderIdLabeledScan : List Char → Option String
  | [] => none
  | c :: t =>
    match matchLabelAt (c :: t) with
    | some rest =>
      let run := rest.takeWhile isIdChar
      if run.length ≥ 4 then some (String.mk run) else orderIdLabeledScan t
    | none => orderIdLabeledScan t

/-- Pass 2 of `extract_order_id`: first whitespace token that, after
stripping edge punctuation, is at least 4 characters, contains a digit and
matches `^[A-Za-z0-9-]+$`. -/
def orderIdTokenScan (l : List Char) : Option String :=
  (splitWs l).findSome? fun tok =>
    let clean := listStrip ".,?!".data tok
    if clean.length ≥ 4 ∧ clean.any Char.isDigit ∧ clean.all isIdChar then
      some (String.mk clean)
    else none

/-- `EntityExtractor.extract_order_id`: labeled pattern first, token scan
second. -/
def extract_order_id (text : String) : Option String :=
  match orderIdLabeledScan text.data with
  | some v => some v
  | none => orderIdTokenScan text.data

/-- Backtracking of `[\w.-]+\.\w+` inside the domain run: the split at the
last `.` that is followed by a word character, the trailing `\w+` taken
greedily. -/
def domainDotSplit : List Char → Option (List Char × List Char)
  | [] => none
  | c :: t =>
    match domainDotSplit t with
    | some (pre, post) => some (c :: pre, post)
    | none =>
      if c = '.' ∧ (t.headD ' ' |> isWordChar) then
        some ([], t.takeWhile isWordChar)
      else none

/-- One attempt of `[\w.-]+@[\w.-]+\.\w+` anchored at the current
position: a nonempty maximal `[\w.-]` run, an `@`, then the domain. -/
def emailAt (l : List Char) : Option String :=
  let run1 := l.takeWhile isLocalChar
  if run1 = [] then none
  else
    match l.drop run1.length with
    | '@' :: rest =>
      let rdom := rest.takeWhile isLocalChar
      match domainDotSplit rdom with
      | some (pre, post) =>
        some (String.mk (run1 ++ '@' :: pre ++ '.' :: post))
      | none => none
    | _ => none

/-- `re.search` of the email pattern: leftmost matching position. -/
def emailScan : List Char → Option String
  | [] => none
  | c :: t =>
    match emailAt (c :: t) with
    | some v => some v
    | none => emailScan t

/-- `EntityExtractor.extract_email`. -/
def extract_email (text : String) : Option String :=
  emailScan text.data

/-- A product record of the mock database: official name, aliases, and the
remaining fields of the JSON record. -/
structure ProductRec where
  product_name : String
  aliases : List String
  extra : List (String × String)
deriving DecidableEq, Repr

/-- An order record: its id and the remaining fields. -/
structure OrderRec where
  order_id : String
  extra : List (String × String)
deriving DecidableEq, Repr

/-- A user record: its email and the remaining fields. -/
structure UserRec where
  email : String
  extra : List (String × String)
deriving DecidableEq, Repr

/-- The mock database (`db.get("orders", [])` etc.). -/
structure Db where
  orders : List OrderRec
  products : List ProductRec
  users : List UserRec
deriving DecidableEq, Repr

/-- An order record as the dict the Python lookups return. -/
def OrderRec.asDict (o : OrderRec) : List (String × String) :=
  ("order_id", o.order_id) :: o.extra

/-- A product record as the dict the Python lookups return. -/
def ProductRec.asDict (p : ProductRec) : List (String × String) :=
  ("product_name", p.product_name) :: p.extra

/-- `EntityExtractor.extract_product`: first catalog product whose official
name occurs (space padded against the padded text, or plainly in the
lowered text) or one of whose aliases occurs in the padded text; aliases
normalize to the official name. -/
def extract_product (text : String) (db : Db) : Option String :=
  let padded := " " ++ pyLower text ++ " "
  db.products.findSome? fun p =>
    let official := pyLower p.product_name
    if strContains padded (" " ++ official ++ " ") ||
        strContains (pyLower text) official then
      some p.product_name
    else
      p.aliases.findSome? fun a =>
        if strContains padded (pyLower a) then some p.product_name else none

/-- Python `if val:` guard of `run_extraction`: keep a non-`None`,
nonempty extraction result. -/
def addTruthy (slot : String) (v : Option String) : List (String × String) :=
  match v with
  | some s => if s ≠ "" then [(slot, s)] else []
  | none => []

/-- `EntityExtractor.run_extraction`.  Fallible: requiring `product_name`
with `database=None` raises `ValueError` in the source, modelled as
`Except.error`. -/
def run_extraction (text : String) (required_entities : List String)
    (database : Option Db) : Except String (List (String × String)) :=
  let e1 := if "order_id" ∈ required_entities then
    addTruthy "order_id" (extract_order_id text) else []
  let e2 := if "email" ∈ required_entities then
    addTruthy "email" (extract_email text) else []
  if "product_name" ∈ required_entities then
    match database with
    | none => .error "Database required for product_name extraction"
    | some db => .ok (e1 ++ e2 ++ addTruthy "product_name" (extract_product text db))
  else .ok (e1 ++ e2)

/-- The value `run_extraction` returns when a database is supplied (the
only way the orchestrator calls it). -/
def runExtractionOk (text : String) (required_entities : List String)
    (db : Db) : List (String × String) :=
  let e1 := if "order_id" ∈ required_entities then
    addTruthy "order_id" (extract_order_id text) else []
  let e2 := if "email" ∈ required_entities then
    addTruthy "email" (extract_email text) else []
  if "product_name" ∈ required_entities then
    e1 ++ e2 ++ addTruthy "product_name" (extract_product text db)
  else e1 ++ e2

/-! ## Action dispatch (`m06_email_state_manager.py`) -/

/-- One intent's configuration; both keys are read with `.get`, so both are
optional.  A rule with neither key models the falsy empty config dict. -/
structure IntentRule where
  required_entities : Option (List String)
  action_type : Option String
deriving DecidableEq, Repr

/-- Python truthiness of a config dict over the two recognized keys:
`not config` holds exactly for the empty dict. -/
def ruleFalsy (r : IntentRule) : Bool :=
  r.required_entities.isNone && r.action_type.isNone

/-- The result dict of `StateManager.process_request`: the `missing` key is
present only in some branches. -/
structure StateResult where
  state : String
  data : List (String × String)
  missing : Option (List String)
deriving DecidableEq, Repr

/-- `StateManager._validate_order_id`. -/
def validate_order_id (order_id : String) : Bool :=
  if order_id = "" then false
  else if pyStartsWith order_id "#" ||
      pyStartsWith (pyUpper order_id) "ORD-" ||
      pyIsDigitStr order_id then true
  else if order_id.length ≥ 4 && order_id.data.any Char.isDigit then true
  else false

/-- `StateManager._lookup_order`: format validation, then exact-id linear
search. -/
def lookup_order (db : Db) (order_id : String) : StateResult :=
  if !validate_order_id order_id then
    ⟨"invalid_format", [], some ["Order ID"]⟩
  else
    match db.orders.find? (fun item => item.order_id = order_id) with
    | some result => ⟨"success", result.asDict, none⟩
    | none => ⟨"not_found", [("order_id", order_id)], none⟩

/-- `StateManager._check_stock`: exact-name linear search. -/
def check_stock (db : Db) (product_name : String) : StateResult :=
  match db.products.find? (fun item => item.product_name = product_name) with
  | some result => ⟨"success", result.asDict, none⟩
  | none => ⟨"not_found", [("product_name", product_name)], none⟩

/-- `StateManager._get_product_info` delegates to `_check_stock`. -/
def get_product_info (db : Db) (product_name : String) : StateResult :=
  check_stock db product_name

/-- `StateManager._trigger_reset`: exact-email linear search. -/
def trigger_reset (db : Db) (email : String) : StateResult :=
  match db.users.find? (fun item => item.email = email) with
  | some _ => ⟨"success", [("email", email)], none⟩
  | none => ⟨"not_found", [("email", email)], none⟩

/-- The action-dispatch tail of `StateManager.process_request` (step 3 of
its body): duck-typed dispatch on `action_type`.  Direct indexing
`extracted_data["slot"]` on an absent key raises `KeyError`, modelled as
`Except.error`. -/
def dispatch_action (config : IntentRule) (db : Db)
    (extracted_data : List (String × String)) : Except String StateResult :=
  match config.action_type with
  | some "lookup_order" =>
    match dictGet extracted_data "order_id" with
    | some v => .ok (lookup_order db v)
    | none => .error "KeyError: order_id"
  | some "check_stock" =>
    match dictGet extracted_data "product_name" with
    | some v => .ok (check_stock db v)
    | none => .error "KeyError: product_name"
  | some "get_product_info" =>
    match dictGet extracted_data "product_name" with
    | some v => .ok (get_product_info db v)
    | none => .error "KeyError: product_name"
  | some "trigger_reset" =>
    match dictGet extracted_data "email" with
    | some v => .ok (trigger_reset db v)
    | none => .error "KeyError: email"
  | some "general_reply" => .ok ⟨"success", [], none⟩
  | _ => .ok ⟨"error", [], none⟩

/-- `StateManager.process_request`.  `missing` collects the required slots
whose value under `extracted_data.get` is falsy (absent or empty); when
none are missing the action is dispatched. -/
def process_request (intent_config : List (String × IntentRule)) (db : Db)
    (intent : String) (extracted_data : List (String × String)) :
    Except String StateResult :=
  match dictGet intent_config intent with
  | none => .ok ⟨"error", [], some []⟩
  | some config =>
    if ruleFalsy config then .ok ⟨"error", [], some []⟩
    else
      let required := config.required_entities.getD []
      let missing :=
        required.filter (fun req => (dictGet extracted_data req).getD "" = "")
      if missing ≠ [] then .ok ⟨"missing_info", [], some missing⟩
      else dispatch_action config db extracted_data

/-! ## Flow orchestration (`m09_flow_manager.py`) -/

/-- The collaborators and static configuration `FlowManager` is built
from.  Intent and mood classification and template rendering are external
black boxes (embedding models, Jinja), so they enter as functions; the FAQ
engine's per-turn verdict enters `process_email` as an argument. -/
structure FlowCtx where
  predictIntent : String → String
  predictMood : String → String
  intent_config : List (String × IntentRule)
  db : Db
  render : String → String

/-- What `process_email` leaves behind: the reply text, the in-memory
ticket store, and the final state of the ticket object the turn worked on
(also when it was just closed), `none` when no ticket was involved. -/
structure FlowResult where
  response : String
  store : List (String × Ticket)
  ticket : Option Ticket

/-- Outcome of the ticket-resolution step: an early return (FAQ handoff or
unrecognized intent) or a ticket to continue the turn with. -/
inductive Step2Out
  | early (response : String) (store : List (String × Ticket))
      (ticket : Option Ticket)
  | go (t : Ticket) (store : List (String × Ticket))

/-- Step 2 of `process_email`: load or create the user's ticket.  An
existing ticket gets the message appended and its mood overwritten; with no
ticket, a handoff ticket (for `general_faq_question`/`unknown`) answers
immediately, an unconfigured intent answers with the apology, and otherwise
a standard ticket is created with the intent's required slots missing. -/
def step2 (C : FlowCtx) (store : List (String × Ticket))
    (user_id text now freshId : String) : Step2Out :=
  match dictGet store user_id with
  | some ticket =>
    let t1 := ticket.add_message now "user" text
    let t2 := { t1 with mood := C.predictMood text }
    .go t2 (dictSet store user_id t2)
  | none =>
    let intent := C.predictIntent text
    let mood := C.predictMood text
    let config := dictGet C.intent_config intent
    if intent = "general_faq_question" ∨ intent = "unknown" then
      let severity := calculate_severity mood
      let t := Ticket.init freshId user_id "human_handoff" mood
        (some [("query", text)]) (some []) severity now
      let t1 := t.add_message now "user" text
      .early (C.render "email_unknown_intent.j2")
        (dictSet store user_id t1) (some t1)
    else
      match config with
      | none =>
        .early "I'm sorry, I didn't understand that request. Could you rephrase?"
          store none
      | some rule =>
        if ruleFalsy rule then
          .early "I'm sorry, I didn't understand that request. Could you rephrase?"
            store none
        else
          let required := rule.required_entities.getD []
          let severity := calculate_severity mood
          let t := Ticket.init freshId user_id intent mood (some [])
            (some required) severity now
          let t1 := t.add_message now "user" text
          .go t1 (dictSet store user_id t1)

/-- Step 3 of `process_email`: when slots are missing, run the extractor on
the turn text restricted to them and merge any nonempty result (the
orchestrator always passes its database, so the fallible call returns
`runExtractionOk`, see `run_extraction_with_db`). -/
def step3 (C : FlowCtx) (user_id text now : String) (t : Ticket)
    (s : List (String × Ticket)) : Ticket × List (String × Ticket) :=
  if t.missing_fields ≠ [] then
    let extracted := runExtractionOk text t.missing_fields C.db
    if extracted ≠ [] then
      let tU := t.update_entities
        (some (extracted.map (fun p => (p.1, some p.2)))) now
      (tU, dictSet s user_id tU)
    else (t, s)
  else (t, s)

/-- Step 4 of `process_email`: dispatch a complete ticket — the result data
is merged into the context dict, which aliases the ticket's entity dict —
and close it on the terminal states, or mark an incomplete ticket
`PENDING_CUSTOMER` and ask for the missing fields.  A dispatch exception or
an explicit `error` state renders the system-error template and returns
without the bot message being logged. -/
def step4 (C : FlowCtx) (user_id now : String) (t : Ticket)
    (s : List (String × Ticket)) : FlowResult :=
  if t.is_complete then
    match process_request C.intent_config C.db t.intent t.extracted_entities with
    | .error _ => ⟨C.render "email_system_error.j2", s, some t⟩
    | .ok action_result =>
      let tM := { t with
        extracted_entities := dictUpdate t.extracted_entities action_result.data }
      let s1 := dictSet s user_id tM
      if action_result.state = "error" then
        ⟨C.render "email_system_error.j2", s1, some tM⟩
      else if action_result.state = "invalid_format" then
        ⟨C.render "email_invalid_format.j2", s1, some tM⟩
      else
        let template_name :=
          if t.intent = "order_status_inquiry" then "email_order_status.j2"
          else "email_base.j2"
        let response := C.render template_name
        let tR := { tM with status := "RESOLVED" }
        let s2 := dictRemove s1 user_id
        let tF := tR.add_message now "bot" response
        ⟨response, s2, some tF⟩
  else
    let tP := { t with status := "PENDING_CUSTOMER" }
    let s1 := dictSet s user_id tP
    let response := C.render "email_request_info.j2"
    let tF := tP.add_message now "bot" response
    ⟨response, dictSet s1 user_id tF, some tF⟩

/-- `FlowManager.process_email`: FAQ fast path, then steps 2–4.  `faq` is
the FAQ engine's verdict for this text at threshold 0.60, `now` and
`freshId` stand for the clock and uuid generator. -/
def process_email (C : FlowCtx) (faq : Option String)
    (store : List (String × Ticket)) (user_id text now freshId : String) :
    FlowResult :=
  match faq with
  | some answer => ⟨answer, store, none⟩
  | none =>
    match step2 C store user_id text now freshId with
    | .early r s t => ⟨r, s, t⟩
    | .go t s =>
      let ts := step3 C user_id text now t s
      step4 C user_id now ts.1 ts.2

/-! ## Reachable ticket states -/

/-- The ticket states that occur in the running system: the two creation
shapes `TicketManager.create_ticket` is actually called with (standard
tickets start with an empty entity dict, handoff tickets with no missing
fields), closed under the mutations the code performs — entity merge,
history append, mood overwrite, status change, the result-data merge into a
complete ticket's aliased entity dict — and under a persistence round
trip. -/
inductive ReachableTicket : Ticket → Prop
  | create_standard (freshId userId intent mood : String)
      (required : List String) (severity now : String) :
      ReachableTicket
        (Ticket.init freshId userId intent mood (some []) (some required)
          severity now)
  | create_handoff (freshId userId mood text severity now : String) :
      ReachableTicket
        (Ticket.init freshId userId "human_handoff" mood
          (some [("query", text)]) (some []) severity now)
  | update (t : Ticket) (ne : Option (List (String × Option String)))
      (now : String) : ReachableTicket t →
      ReachableTicket (t.update_entities ne now)
  | message (t : Ticket) (now sender text : String) : ReachableTicket t →
      ReachableTicket (t.add_message now sender text)
  | set_mood (t : Ticket) (m : String) : ReachableTicket t →
      ReachableTicket { t with mood := m }
  | set_status (t : Ticket) (st : String) : ReachableTicket t →
      ReachableTicket { t with status := st }
  | merge_result_data (t : Ticket) (d : List (String × String)) :
      t.missing_fields = [] → ReachableTicket t →
      ReachableTicket
        { t with extracted_entities := dictUpdate t.extracted_entities d }
  | load (t : Ticket) : ReachableTicket t →
      ReachableTicket (Ticket.from_dict (Ticket.to_dict t))

/-! ## Concrete instances used by the closed witnesses -/

/-- Intent configuration with the order-status intent, as in
`config/intent_config.json`. -/
def wCfg : List (String × IntentRule) :=
  [("order_status_inquiry", ⟨some ["order_id"], some "lookup_order"⟩)]

/-- A database holding shipped order 1001. -/
def wDb : Db :=
  ⟨[⟨"1001", [("status", "Shipped")]⟩], [], []⟩

/-- A flow context whose classifiers answer order-status/Neutral and whose
renderer returns the template name. -/
def wCtx : FlowCtx :=
  ⟨fun _ => "order_status_inquiry", fun _ => "Neutral", wCfg, wDb,
   fun n => n⟩

/-- A stored in-progress order-status ticket awaiting the order id. -/
def wTicket : Ticket :=
  Ticket.init "ID0" "bob@example.com" "order_status_inquiry" "Urgent"
    (some []) (some ["order_id"]) "High" "T0"

/-- A store holding `wTicket`. -/
def wStore : List (String × Ticket) :=
  [("bob@example.com", wTicket)]

/-! ## Helper lemmas -/

/-- A persistence round trip restores every field of a ticket. -/
theorem fromDict_toDict (t : Ticket) :
    Ticket.from_dict (Ticket.to_dict t) = t := rfl

/-- After deleting a key, looking it up yields nothing. -/
theorem dictGet_dictRemove {α : Type} (d : List (String × α)) (k : String) :
    dictGet (dictRemove d k) k = none := by
  induction d with
  | nil => rfl
  | cons p t ih =>
    by_cases h : p.1 = k
    · simp [dictRemove, h, ih]
    · simp [dictRemove, dictGet, h, ih]

/-- `dictHasKey` decides membership among the keys. -/
theorem dictHasKey_iff {α : Type} (d : List (String × α)) (k : String) :
    dictHasKey d k = true ↔ ∃ p ∈ d, p.1 = k := by
  induction d with
  | nil => simp [dictHasKey]
  | cons p t ih =>
    simp only [dictHasKey, Bool.or_eq_true, decide_eq_true_eq, ih,
      List.mem_cons]
    constructor
    · rintro (h | ⟨q, hq, hqk⟩)
      · exact ⟨p, Or.inl rfl, h⟩
      · exact ⟨q, Or.inr hq, hqk⟩
    · rintro ⟨q, (rfl | hq), hqk⟩
      · exact Or.inl hqk
      · exact Or.inr ⟨q, hq, hqk⟩

/-- `update_entities` never touches the mood. -/
theorem update_entities_mood (t : Ticket)
    (ne : Option (List (String × Option String))) (now : String) :
    (t.update_entities ne now).mood = t.mood := by
  cases ne with
  | none => rfl
  | some l =>
    simp only [Ticket.update_entities]
    split
    · rfl
    · split <;> rfl

/-- `update_entities` never touches the severity. -/
theorem update_entities_severity (t : Ticket)
    (ne : Option (List (String × Option String))) (now : String) :
    (t.update_entities ne now).severity = t.severity := by
  cases ne with
  | none => rfl
  | some l =>
    simp only [Ticket.update_entities]
    split
    · rfl
    · split <;> rfl

/-- `update_entities` preserves the missing/entities disjointness
invariant (and re-establishes it whenever an actual merge happens). -/
theorem update_entities_invariant (t : Ticket)
    (ne : Option (List (String × Option String))) (now : String)
    (ih : ticketInvariant t) : ticketInvariant (t.update_entities ne now) := by
  cases ne with
  | none => exact ih
  | some l =>
    simp only [Ticket.update_entities]
    split
    · exact ih
    · split
      · exact ih
      · intro f hf
        dsimp only at hf ⊢
        rw [List.mem_map]
        rintro ⟨p, hp, hpf⟩
        split at hf
        · simp_all
        · rw [List.mem_filter] at hf
          have hk := (dictHasKey_iff _ f).mpr ⟨p, hp, hpf⟩
          simp_all

/-- A ticket is complete exactly when its missing list is empty. -/
theorem is_complete_iff (t : Ticket) :
    t.is_complete = true ↔ t.missing_fields = [] := by
  simp [Ticket.is_complete, List.length_eq_zero]

/-- Order lookup never reports missing information. -/
theorem lookup_order_state (db : Db) (v : String) :
    (lookup_order db v).state ≠ "missing_info" := by
  unfold lookup_order
  split
  · simp
  · split <;> simp

/-- Stock lookup never reports missing information. -/
theorem check_stock_state (db : Db) (v : String) :
    (check_stock db v).state ≠ "missing_info" := by
  unfold check_stock
  split <;> simp

/-- Reset lookup never reports missing information. -/
theorem trigger_reset_state (db : Db) (v : String) :
    (trigger_reset db v).state ≠ "missing_info" := by
  unfold trigger_reset
  split <;> simp

/-- No branch of the action dispatch produces the `missing_info` state. -/
theorem dispatch_action_state (config : IntentRule) (db : Db)
    (e : List (String × String)) (r : StateResult)
    (h : dispatch_action config db e = .ok r) : r.state ≠ "missing_info" := by
  unfold dispatch_action at h
  split at h
  · split at h
    · cases h; exact lookup_order_state db _
    · cases h
  · split at h
    · cases h; exact check_stock_state db _
    · cases h
  · split at h
    · cases h; exact check_stock_state db _
    · cases h
  · split at h
    · cases h; exact trigger_reset_state db _
    · cases h
  · cases h; decide
  · cases h; decide

/-- With a database supplied — the only way the orchestrator calls it —
`run_extraction` cannot raise and returns `runExtractionOk`. -/
theorem run_extraction_with_db (text : String) (req : List String)
    (db : Db) :
    run_extraction text req (some db) = .ok (runExtractionOk text req db) := by
  unfold run_extraction runExtractionOk
  by_cases h : "product_name" ∈ req <;> simp [h]

/-- Membership in a kept extraction result pins the slot, the value and the
nonemptiness the `if val:` guard checked. -/
theorem mem_addTruthy (slot : String) (v : Option String)
    (kv : String × String) (h : kv ∈ addTruthy slot v) :
    kv.1 = slot ∧ v = some kv.2 ∧ kv.2 ≠ "" := by
  cases v with
  | none => cases h
  | some s =>
    simp only [addTruthy] at h
    split at h
    · rw [List.mem_singleton] at h
      subst h
      exact ⟨rfl, rfl, by assumption⟩
    · cases h

/-- Membership in a slot-guarded extraction result additionally yields the
guard. -/
theorem mem_guarded_addTruthy (req : List String) (slot : String)
    (v : Option String) (kv : String × String)
    (h : kv ∈ if slot ∈ req then addTruthy slot v else []) :
    slot ∈ req ∧ kv.1 = slot ∧ v = some kv.2 ∧ kv.2 ≠ "" := by
  split at h
  · exact ⟨by assumption, mem_addTruthy slot v kv h⟩
  · cases h

/-- Whatever the branches of step 4 do to the ticket, they never touch its
mood or severity. -/
theorem step4_frame (C : FlowCtx) (user_id now : String) (t : Ticket)
    (s : List (String × Ticket)) :
    ∃ tF, (step4 C user_id now t s).ticket = some tF ∧
      tF.mood = t.mood ∧ tF.severity = t.severity := by
  unfold step4
  split
  · split
    · exact ⟨t, rfl, rfl, rfl⟩
    · split
      · exact ⟨_, rfl, rfl, rfl⟩
      · split
        · exact ⟨_, rfl, rfl, rfl⟩
        · exact ⟨_, rfl, rfl, rfl⟩
  · exact ⟨_, rfl, rfl, rfl⟩

/-- Step 3 (slot filling) never touches the ticket's mood or severity. -/
theorem step3_frame (C : FlowCtx) (user_id text now : String) (t : Ticket)
    (s : List (String × Ticket)) :
    (step3 C user_id text now t s).1.mood = t.mood ∧
      (step3 C user_id text now t s).1.severity = t.severity := by
  unfold step3
  split
  · dsimp only
    split
    · exact ⟨update_entities_mood t _ now, update_entities_severity t _ now⟩
    · exact ⟨rfl, rfl⟩
  · exact ⟨rfl, rfl⟩

/-! ## Claim theorems -/

/-- Claim C1: every ticket that exists at any point — after creation as the
system performs it, after any entity merge via `update_entities`, after the
other in-place mutations of a turn, and after any load from persistence —
satisfies `missing_fields ∩ keys(extracted_entities) = ∅`. -/
theorem c1_reachable_ticket_invariant (t : Ticket)
    (h : ReachableTicket t) : ticketInvariant t := by
  induction h with
  | create_standard freshId userId intent mood required severity now =>
    intro f hf
    simp [Ticket.init]
  | create_handoff freshId userId mood text severity now =>
    intro f hf
    simp [Ticket.init] at hf
  | update t ne now _ ih => exact update_entities_invariant t ne now ih
  | message t now sender text _ ih => exact ih
  | set_mood t m _ ih => exact ih
  | set_status t st _ ih => exact ih
  | merge_result_data t d hm _ _ =>
    intro f hf
    dsimp only at hf
    rw [hm] at hf
    cases hf
  | load t _ ih => rw [fromDict_toDict]; exact ih

/-- Closed instance of claim C1: a freshly created standard order-status
ticket is reachable and satisfies the invariant. -/
theorem c1_witness : ReachableTicket wTicket ∧ ticketInvariant wTicket :=
  ⟨ReachableTicket.create_standard "ID0" "bob@example.com"
      "order_status_inquiry" "Urgent" ["order_id"] "High" "T0",
   c1_reachable_ticket_invariant wTicket
     (ReachableTicket.create_standard "ID0" "bob@example.com"
       "order_status_inquiry" "Urgent" ["order_id"] "High" "T0")⟩

/-- Claim C3: serializing a ticket with `to_dict` and deserializing with
`from_dict` reproduces a ticket equal to the original in every field —
also for empty history, entities and missing fields, since record equality
covers all eleven fields. -/
theorem c3_roundtrip (t : Ticket) :
    Ticket.from_dict (Ticket.to_dict t) = t :=
  fromDict_toDict t

/-- Claim C6: the severity mapping sends Angry and Urgent to High,
Confused to Medium, Happy and Neutral to Low, and any other label to
Low. -/
theorem c6_severity_mapping (mood : String) :
    ((mood = "Angry" ∨ mood = "Urgent") → calculate_severity mood = "High") ∧
    (mood = "Confused" → calculate_severity mood = "Medium") ∧
    ((mood = "Happy" ∨ mood = "Neutral") → calculate_severity mood = "Low") ∧
    (mood ≠ "Angry" → mood ≠ "Urgent" → mood ≠ "Confused" →
      calculate_severity mood = "Low") := by
  refine ⟨fun h => ?_, fun h => ?_, fun h => ?_, fun h1 h2 h3 => ?_⟩
  · unfold calculate_severity
    rw [if_pos h]
  · subst h
    rfl
  · rcases h with h | h <;> subst h <;> rfl
  · unfold calculate_severity
    rw [if_neg (by tauto), if_neg h3]

/-- Closed instance of claim C6 exercising all four cases of the
mapping. -/
theorem c6_witness :
    calculate_severity "Urgent" = "High" ∧
    calculate_severity "Confused" = "Medium" ∧
    calculate_severity "Neutral" = "Low" ∧
    calculate_severity "Excited" = "Low" :=
  ⟨(c6_severity_mapping "Urgent").1 (Or.inr rfl),
   (c6_severity_mapping "Confused").2.1 rfl,
   (c6_severity_mapping "Neutral").2.2.1 (Or.inr rfl),
   (c6_severity_mapping "Excited").2.2.2 (by decide) (by decide) (by decide)⟩

/-- Claim C10: `update_entities` with a `None`, empty, or all-`None`
argument returns without modifying the ticket — entities, missing fields,
`updated_at`, status, severity and history are all untouched. -/
theorem c10_update_entities_noop (t : Ticket) (now : String)
    (ne : Option (List (String × Option String)))
    (h : ne = none ∨ ne = some [] ∨
      ∃ l, ne = some l ∧ ∀ p ∈ l, p.2 = none) :
    t.update_entities ne now = t := by
  rcases h with h | h | ⟨l, h, hall⟩
  · subst h; rfl
  · subst h; rfl
  · subst h
    by_cases hl : l = []
    · subst hl; rfl
    · have hv : l.filterMap (fun p => p.2.map (fun v => (p.1, v))) = [] := by
        rw [List.filterMap_eq_nil_iff]
        intro p hp
        rw [hall p hp]
        rfl
      simp [Ticket.update_entities, hl, hv]

/-- Closed instance of claim C10: an extraction round that only produced a
`None` value leaves the stored ticket unchanged. -/
theorem c10_witness :
    wTicket.update_entities (some [("order_id", none)]) "T9" = wTicket :=
  c10_update_entities_noop wTicket "T9" (some [("order_id", none)])
    (Or.inr (Or.inr ⟨[("order_id", none)], rfl, by decide⟩))

/-- Counterexample to claim C5: with the order-status config and the
entities dict mapping the required slot `order_id` to the empty string,
every required slot IS a key of the entities mapping, yet `process_request`
reports `missing_info` — because the source tests value truthiness
(`not extracted_data.get(req)`), not key membership. -/
theorem c5_counterexample :
    "order_id" ∈ ([("order_id", "")] : List (String × String)).map Prod.fst ∧
    process_request wCfg wDb "order_status_inquiry" [("order_id", "")] =
      .ok ⟨"missing_info", [], some ["order_id"]⟩ := by
  constructor
  · decide
  · rfl

/-- Claim C5 as amended: `missing` is the list of required slots whose
value under the entities mapping is falsy — absent or the empty string.
When it is non-empty the result is `missing_info` with empty data and that
list; when it is empty the dispatcher proceeds to the action, whose result
is never `missing_info`. -/
theorem c5_missing_by_truthiness (cfg : List (String × IntentRule))
    (db : Db) (intent : String) (entities : List (String × String))
    {rule : IntentRule} {missing : List String}
    (hc : dictGet cfg intent = some rule)
    (hf : ruleFalsy rule = false)
    (hm : (rule.required_entities.getD []).filter
      (fun req => (dictGet entities req).getD "" = "") = missing) :
    (missing ≠ [] → process_request cfg db intent entities =
      .ok ⟨"missing_info", [], some missing⟩) ∧
    (missing = [] →
      process_request cfg db intent entities =
        dispatch_action rule db entities ∧
      ∀ r, process_request cfg db intent entities = .ok r →
        r.state ≠ "missing_info") := by
  subst hm
  unfold process_request
  rw [hc]
  simp only [hf, Bool.false_eq_true, if_false]
  constructor
  · intro h
    rw [if_pos h]
  · intro h
    rw [if_neg (by simp [h])]
    exact ⟨rfl, fun r hr => dispatch_action_state rule db entities r hr⟩

/-- Closed instance of claim C5 (amended), exercising both directions: a
truthy required slot proceeds to the order lookup, an absent one reports
it missing. -/
theorem c5_witness :
    process_request wCfg wDb "order_status_inquiry" [("order_id", "1001")] =
      dispatch_action ⟨some ["order_id"], some "lookup_order"⟩ wDb
        [("order_id", "1001")] ∧
    process_request wCfg wDb "order_status_inquiry" [] =
      .ok ⟨"missing_info", [], some ["order_id"]⟩ :=
  ⟨((c5_missing_by_truthiness wCfg wDb "order_status_inquiry"
      [("order_id", "1001")] rfl rfl rfl).2 rfl).1,
   (c5_missing_by_truthiness wCfg wDb "order_status_inquiry" [] rfl rfl
      rfl).1 (by decide)⟩

/-- Claim C7: once layer 1 accepts a label at confidence at or above 0.50,
a Happy label flips to Angry in the presence of a negation-of-happiness
phrase and an Urgent label flips to Neutral in the presence of a calming
phrase; below the threshold, or with no usable model, the result is the
keyword layer's verdict, to which no override is applied. -/
theorem c7_safety_overrides (text : String) (conf : ℚ)
    (hconf : conf ≥ 1/2) :
    (containsAny (pyLower text) happyNegatives = true →
      predict_mood (some ("Happy", conf)) text = "Angry") ∧
    (containsAny (pyLower text) calmWords = true →
      predict_mood (some ("Urgent", conf)) text = "Neutral") ∧
    (∀ ml : Option (String × ℚ),
      (ml = none ∨ ∃ m c, ml = some (m, c) ∧ c < 1/2) →
      predict_mood ml text = keyword_fallback text) := by
  refine ⟨fun h => ?_, fun h => ?_, fun ml hml => ?_⟩
  · simp only [predict_mood]
    rw [if_pos hconf, if_pos ⟨trivial, h⟩]
  · simp only [predict_mood]
    rw [if_pos hconf, if_neg (by simp), if_pos ⟨trivial, h⟩]
  · rcases hml with h | ⟨m, c, h, hc⟩
    · subst h; rfl
    · subst h
      simp only [predict_mood]
      rw [if_neg (not_le.mpr hc)]

/-- Closed instance of claim C7: the two overrides fire on accepted
layer-1 labels, while the same negation text under a low-confidence model
falls back to the keyword layer, which returns Happy — no override. -/
theorem c7_witness :
    predict_mood (some ("Happy", 9/10)) "thanks, but there is a delay" =
      "Angry" ∧
    predict_mood (some ("Urgent", 3/5)) "just checking in, no rush" =
      "Neutral" ∧
    predict_mood (some ("Happy", 1/4)) "thanks, but there is a delay" =
      keyword_fallback "thanks, but there is a delay" ∧
    keyword_fallback "thanks, but there is a delay" = "Happy" :=
  ⟨(c7_safety_overrides "thanks, but there is a delay" (9/10)
      (by norm_num)).1 (by decide),
   (c7_safety_overrides "just checking in, no rush" (3/5)
      (by norm_num)).2.1 (by decide),
   (c7_safety_overrides "thanks, but there is a delay" (1/2)
      (le_refl _)).2.2 (some ("Happy", 1/4))
      (Or.inr ⟨"Happy", 1/4, rfl, by norm_num⟩),
   by decide⟩

/-- Claim C4 evaluated at the failing input: with the trained model
unavailable and no lexicon keyword matching, the source's fallback chain
ends at the keyword layer and returns Neutral unconditionally — the
`mood_anchors` computed in `__init__` are never consulted — whereas the
spec's anchor layer would return any sufficiently close non-Neutral winner
(for instance Confused at similarity 0.5). -/
theorem c4_fallback_returns_neutral :
    predict_mood none "The parcel seems misplaced" = "Neutral" ∧
    keyword_fallback "The parcel seems misplaced" = "Neutral" ∧
    specAnchorLayer "Confused" (1/2) = "Confused" ∧
    ("Neutral" : String) ≠ "Confused" := by
  refine ⟨by decide, by decide, ?_, by decide⟩
  unfold specAnchorLayer
  rw [if_neg]
  rintro ⟨-, habs⟩
  norm_num at habs

/-- Counterexample to claim C9: requiring the product-name slot while
passing `database=None` makes `run_extraction` raise `ValueError` instead
of returning a mapping. -/
theorem c9_counterexample :
    run_extraction "Tell me about the gadget" ["product_name"] none =
      .error "Database required for product_name extraction" := by
  rfl

/-- Claim C9 as amended: except in the one raising combination —
`product_name` required with no catalog — `run_extraction` returns a
mapping that contains only slots it was asked for and found (each entry
carries the corresponding extractor's nonempty result); absent slots are
simply omitted. -/
theorem c9_run_extraction_ok (text : String) (required : List String)
    (database : Option Db)
    (h : ¬("product_name" ∈ required ∧ database = none)) :
    ∃ m, run_extraction text required database = .ok m ∧
      ∀ kv ∈ m, kv.1 ∈ required ∧ kv.2 ≠ "" ∧
        (kv.1 = "order_id" → extract_order_id text = some kv.2) ∧
        (kv.1 = "email" → extract_email text = some kv.2) ∧
        (kv.1 = "product_name" →
          ∃ db, database = some db ∧ extract_product text db = some kv.2) := by
  by_cases hp : "product_name" ∈ required
  · cases database with
    | none => exact absurd ⟨hp, rfl⟩ h
    | some db =>
      refine ⟨_, by rw [run_extraction_with_db], ?_⟩
      intro kv hkv
      unfold runExtractionOk at hkv
      rw [if_pos hp] at hkv
      rcases List.mem_append.mp hkv with hkv1 | hkv3
      · rcases List.mem_append.mp hkv1 with hkv1 | hkv2
        · obtain ⟨hreq, hk, hv, hne⟩ :=
            mem_guarded_addTruthy required "order_id" _ kv hkv1
          rw [hk]
          refine ⟨hreq, hne, fun _ => hv, ?_, ?_⟩
          · intro habs; exact absurd habs (by decide)
          · intro habs; exact absurd habs (by decide)
        · obtain ⟨hreq, hk, hv, hne⟩ :=
            mem_guarded_addTruthy required "email" _ kv hkv2
          rw [hk]
          refine ⟨hreq, hne, ?_, fun _ => hv, ?_⟩
          · intro habs; exact absurd habs (by decide)
          · intro habs; exact absurd habs (by decide)
      · obtain ⟨hk, hv, hne⟩ := mem_addTruthy "product_name" _ kv hkv3
        rw [hk]
        refine ⟨hp, hne, ?_, ?_, fun _ => ⟨db, rfl, hv⟩⟩
        · intro habs; exact absurd habs (by decide)
        · intro habs; exact absurd habs (by decide)
  · cases database with
    | none =>
      have heq : run_extraction text required none =
          .ok ((if "order_id" ∈ required then
              addTruthy "order_id" (extract_order_id text) else []) ++
            (if "email" ∈ required then
              addTruthy "email" (extract_email text) else [])) := by
        unfold run_extraction
        rw [if_neg hp]
      refine ⟨_, heq, ?_⟩
      · intro kv hkv
        rcases List.mem_append.mp hkv with hkv1 | hkv2
        · obtain ⟨hreq, hk, hv, hne⟩ :=
            mem_guarded_addTruthy required "order_id" _ kv hkv1
          rw [hk]
          refine ⟨hreq, hne, fun _ => hv, ?_, ?_⟩
          · intro habs; exact absurd habs (by decide)
          · intro habs; exact absurd habs (by decide)
        · obtain ⟨hreq, hk, hv, hne⟩ :=
            mem_guarded_addTruthy required "email" _ kv hkv2
          rw [hk]
          refine ⟨hreq, hne, ?_, fun _ => hv, ?_⟩
          · intro habs; exact absurd habs (by decide)
          · intro habs; exact absurd habs (by decide)
    | some db =>
      refine ⟨_, by rw [run_extraction_with_db], ?_⟩
      intro kv hkv
      unfold runExtractionOk at hkv
      rw [if_neg hp] at hkv
      rcases List.mem_append.mp hkv with hkv1 | hkv2
      · obtain ⟨hreq, hk, hv, hne⟩ :=
          mem_guarded_addTruthy required "order_id" _ kv hkv1
        rw [hk]
        refine ⟨hreq, hne, fun _ => hv, ?_, ?_⟩
        · intro habs; exact absurd habs (by decide)
        · intro habs; exact absurd habs (by decide)
      · obtain ⟨hreq, hk, hv, hne⟩ :=
          mem_guarded_addTruthy required "email" _ kv hkv2
        rw [hk]
        refine ⟨hreq, hne, ?_, fun _ => hv, ?_⟩
        · intro habs; exact absurd habs (by decide)
        · intro habs; exact absurd habs (by decide)

/-- Closed instance of claim C9 (amended): extracting the order id only,
with no database, succeeds and omits nothing it was not asked for. -/
theorem c9_witness :
    ∃ m, run_extraction "my order #1234 is missing" ["order_id"] none =
      .ok m ∧
      ∀ kv ∈ m, kv.1 ∈ ["order_id"] ∧ kv.2 ≠ "" ∧
        (kv.1 = "order_id" →
          extract_order_id "my order #1234 is missing" = some kv.2) ∧
        (kv.1 = "email" →
          extract_email "my order #1234 is missing" = some kv.2) ∧
        (kv.1 = "product_name" →
          ∃ db, (none : Option Db) = some db ∧
            extract_product "my order #1234 is missing" db = some kv.2) :=
  c9_run_extraction_ok "my order #1234 is missing" ["order_id"] none
    (by decide)

/-- Steps 3 and 4 combined never touch the ticket's mood or severity. -/
theorem step34_frame (C : FlowCtx) (user_id text now : String) (t : Ticket)
    (s : List (String × Ticket)) :
    ∃ tF, (step4 C user_id now (step3 C user_id text now t s).1
        (step3 C user_id text now t s).2).ticket = some tF ∧
      tF.mood = t.mood ∧ tF.severity = t.severity := by
  obtain ⟨h1, h2⟩ := step3_frame C user_id text now t s
  obtain ⟨tF, hT, hm, hs⟩ := step4_frame C user_id now
    (step3 C user_id text now t s).1 (step3 C user_id text now t s).2
  exact ⟨tF, hT, by rw [hm, h1], by rw [hs, h2]⟩

/-- Claim C2: whenever a turn reaches the decision step with a complete
ticket and the dispatch returns one of the two terminal states — `success`
or `not_found` — `process_email` removes the user's ticket from the store
before returning, so a subsequent `get_ticket` lookup yields nothing in
both cases. -/
theorem c2_terminal_states_close_ticket (C : FlowCtx) (faq : Option String)
    (store : List (String × Ticket)) (user_id text now freshId : String)
    {t : Ticket} {s : List (String × Ticket)} {t' : Ticket}
    {s' : List (String × Ticket)} {r : StateResult}
    (hfaq : faq = none)
    (h2 : step2 C store user_id text now freshId = .go t s)
    (h3 : step3 C user_id text now t s = (t', s'))
    (hc : t'.missing_fields = [])
    (hpr : process_request C.intent_config C.db t'.intent
      t'.extracted_entities = .ok r)
    (hst : r.state = "success" ∨ r.state = "not_found") :
    dictGet (process_email C faq store user_id text now freshId).store
      user_id = none := by
  subst hfaq
  have hcomp : t'.is_complete = true := (is_complete_iff t').mpr hc
  simp only [process_email, h2, h3]
  unfold step4
  rw [if_pos hcomp, hpr]
  dsimp only
  rcases hst with h | h <;>
    rw [if_neg (by rw [h]; decide), if_neg (by rw [h]; decide)] <;>
    exact dictGet_dictRemove _ _

/-- Closed instance of claim C2: a single-turn order-status conversation
over order 1001 dispatches to `success` and the ticket is gone from the
store afterwards. -/
theorem c2_witness :
    dictGet (process_email wCtx none [] "bob@example.com"
      "Where is my order #1001?" "T0" "ID1").store "bob@example.com" =
      none :=
  c2_terminal_states_close_ticket wCtx none [] "bob@example.com"
    "Where is my order #1001?" "T0" "ID1" rfl rfl rfl rfl rfl (Or.inl rfl)

/-- Claim C8: on a turn against an existing stored ticket, the final
ticket object carries the freshly classified mood of the new message while
its severity is exactly the stored one — severity is never recomputed
after creation. -/
theorem c8_mood_overwritten_severity_frozen (C : FlowCtx)
    (faq : Option String) (store : List (String × Ticket))
    (user_id text now freshId : String) {t0 : Ticket}
    (hfaq : faq = none)
    (h0 : dictGet store user_id = some t0) :
    ∃ tF, (process_email C faq store user_id text now freshId).ticket =
        some tF ∧
      tF.mood = C.predictMood text ∧ tF.severity = t0.severity := by
  subst hfaq
  simp only [process_email, step2, h0]
  obtain ⟨tF, hT, hm, hs⟩ := step34_frame C user_id text now
    { t0.add_message now "user" text with mood := C.predictMood text }
    (dictSet store user_id
      { t0.add_message now "user" text with mood := C.predictMood text })
  exact ⟨tF, hT, hm, hs⟩

/-- Closed instance of claim C8: a follow-up turn on a stored High/Urgent
ticket reclassifies the mood to Neutral while the severity stays High. -/
theorem c8_witness :
    ∃ tF, (process_email wCtx none wStore "bob@example.com"
        "Any update on my order?" "T1" "ID2").ticket = some tF ∧
      tF.mood = wCtx.predictMood "Any update on my order?" ∧
      tF.severity = wTicket.severity :=
  c8_mood_overwritten_severity_frozen wCtx none wStore "bob@example.com"
    "Any update on my order?" "T1" "ID2" rfl rfl
